import Mathlib

/-
Verification of the Bill Synchronization & Local-State Consistency Engine
of the OneWay dashboard (frontend Dashboard page, QRModal and the two
Sentinel incident-report pages).  JavaScript objects keyed by account id
are embedded as association lists with JavaScript property-update
semantics; the handlers of the components are embedded as pure state
transformers whose network outcomes are passed in as explicit parameters.
-/

namespace OneWay

abbrev AccountId := String
abbrev ServiceType := String

/- JavaScript object primitives.  A spread update replaces the value at an
   existing key in place or appends a new key at the end; delete removes
   the key; a property read of a missing key gives undefined, modelled as
   none. -/

def jsLookup {α : Type} (m : List (AccountId × α)) (k : AccountId) : Option α :=
  match m with
  | [] => none
  | (k₁, v) :: rest => if k₁ = k then some v else jsLookup rest k

def jsHasKey {α : Type} (m : List (AccountId × α)) (k : AccountId) : Bool :=
  match m with
  | [] => false
  | (k₁, _) :: rest => k₁ = k || jsHasKey rest k

def jsInsert {α : Type} (m : List (AccountId × α)) (k : AccountId) (v : α) :
    List (AccountId × α) :=
  match m with
  | [] => [(k, v)]
  | (k₁, v₁) :: rest => if k₁ = k then (k, v) :: rest else (k₁, v₁) :: jsInsert rest k v

def jsDelete {α : Type} (m : List (AccountId × α)) (k : AccountId) :
    List (AccountId × α) :=
  m.filter (fun p => p.1 ≠ k)

def jsKeys {α : Type} (m : List (AccountId × α)) : List AccountId :=
  m.map Prod.fst

/- Data model, from the shapes used by the Dashboard page and the backend
   boundary in the api module.  A bill snapshot carries an optional amount
   due (absent field modelled as none), a status string, the error flag
   written by the failure path (absent modelled as false) and optional
   units consumed. -/

structure BillSnapshot where
  amount_due : Option Int
  status : String
  error : Bool
  units_consumed : Option Int
deriving DecidableEq, Repr

structure Account where
  id : AccountId
  service_type : ServiceType
  consumer_id : String
  label : String
  profile_id : String
  number_plate : Option String
deriving DecidableEq, Repr

abbrev BillData := List (AccountId × BillSnapshot)
abbrev LoadingMap := List (AccountId × Bool)

/- JavaScript truthiness of a possibly absent boolean property, as in the
   reads of loadingAccounts at an account id. -/
def loadingTruthy (la : LoadingMap) (id : AccountId) : Bool :=
  (jsLookup la id).getD false

/- From the Dashboard page, fetchBillForAccount: the failure branch writes
   amount_due 0, status unknown, error true. -/
def errorSnapshot : BillSnapshot :=
  { amount_due := some 0, status := "unknown", error := true, units_consumed := none }

/- The whole per-account fetch lifecycle of fetchBillForAccount: set the
   loading flag, merge the outcome (the backend result on success, the
   error snapshot on failure), clear the loading flag in the finally
   block.  The network outcome is an explicit parameter. -/
def fetchBillForAccount (a : Account) (outcome : Except Unit BillSnapshot)
    (bd : BillData) (la : LoadingMap) : BillData × LoadingMap :=
  let la₁ := jsInsert la a.id true
  let bd₁ :=
    match outcome with
    | .ok data => jsInsert bd a.id data
    | .error _ => jsInsert bd a.id errorSnapshot
  (bd₁, jsInsert la₁ a.id false)

/- Layout cache, from loadCachedLayout and saveCachedLayout of the
   Dashboard page.  The stored value is either absent (getItem returned
   null or a falsy string), malformed (JSON.parse threw) or a parsed
   record; a missing timestamp field is modelled as none. -/

structure CacheData where
  accounts : List Account
  billData : BillData
  timestamp : Option Int
deriving DecidableEq, Repr

inductive StoredCache where
  | absent
  | malformed
  | parsed (d : CacheData)
deriving DecidableEq, Repr

def msPerDay : Int := 24 * 60 * 60 * 1000

/- The load path: the guard is data.timestamp being truthy (present and
   nonzero) and the age being strictly below the 24-hour window; every
   other path, including the catch, returns null. -/
def loadCachedLayout (now : Int) (s : StoredCache) : Option CacheData :=
  match s with
  | .absent => none
  | .malformed => none
  | .parsed d =>
    match d.timestamp with
    | none => none
    | some t => if t ≠ 0 ∧ now - t < msPerDay then some d else none

/- The save path writes the record with the current timestamp; a storage
   failure is swallowed, leaving whatever was stored before. -/
def saveCachedLayout (storageOk : Bool) (now : Int) (accounts : List Account)
    (bd : BillData) (cache : Option CacheData) : Option CacheData :=
  if storageOk then
    some { accounts := accounts, billData := bd, timestamp := some now }
  else cache

/- Payment completion, from handlePaymentComplete of the Dashboard page,
   invoked by the QRModal Payment Done button.  The new snapshot spreads
   the previous one and overrides amount_due and status; a spread of a
   missing snapshot leaves error and units absent. -/
def paymentCompleteSnapshot (prev : Option BillSnapshot) : BillSnapshot :=
  match prev with
  | some s => { s with amount_due := some 0, status := "paid" }
  | none => { amount_due := some 0, status := "paid", error := false, units_consumed := none }

structure PaymentCompleteResult where
  billData : BillData
  cache : Option CacheData
deriving DecidableEq, Repr

def handlePaymentComplete (storageOk : Bool) (now : Int)
    (selectedAccount : Option Account) (accounts : List Account)
    (bd : BillData) (cache : Option CacheData) : PaymentCompleteResult :=
  match selectedAccount with
  | none => { billData := bd, cache := cache }
  | some a =>
    let updated := jsInsert bd a.id (paymentCompleteSnapshot (jsLookup bd a.id))
    { billData := updated
      cache := saveCachedLayout storageOk now accounts updated cache }

/- Chart aggregation, from the fetchChartData effect of the Dashboard
   page.  SERVICE_CHART_META is a fixed string-keyed table with a default
   entry whose name is the raw type. -/

structure ComparisonEntry where
  service : String
  amount : Int
  fill : String
deriving DecidableEq, Repr

abbrev TrendPoint := String
abbrev TrendLine := String

structure ChartState where
  comparisonData : List ComparisonEntry
  trendData : List TrendPoint
  trendLines : List TrendLine
deriving DecidableEq, Repr

structure ChartResponse where
  comparison_data : Option (List ComparisonEntry)
  trend_data : Option (List TrendPoint)
  trend_lines : Option (List TrendLine)
deriving DecidableEq, Repr

def serviceChartMeta (t : ServiceType) : Option (String × String) :=
  match t with
  | "kseb" => some ("KSEB", "#d97706")
  | "kwa" => some ("KWA", "#119bb0")
  | "echallan" => some ("e-Challan", "#f59e0b")
  | "ksmart" => some ("K-Smart", "#fbbf24")
  | _ => none

def chartMetaName (t : ServiceType) : String :=
  match serviceChartMeta t with
  | some m => m.1
  | none => t

def chartMetaFill (t : ServiceType) : String :=
  match serviceChartMeta t with
  | some m => m.2
  | none => "#94a3b8"

/- A JavaScript Set built from a list keeps the first occurrence of each
   element, in order. -/
def jsSetDedup (l : List ServiceType) : List ServiceType :=
  match l with
  | [] => []
  | x :: xs => x :: jsSetDedup (xs.filter (fun y => y ≠ x))
termination_by l.length
decreasing_by
  simp only [List.length_cons]
  exact Nat.lt_succ_of_le (List.length_filter_le _ _)

/- The per-account amount read in the local fallback: a missing snapshot
   or a falsy amount contributes zero. -/
def billAmount (bd : BillData) (id : AccountId) : Int :=
  match jsLookup bd id with
  | some s => s.amount_due.getD 0
  | none => 0

def typeTotal (accounts : List Account) (bd : BillData) (t : ServiceType) : Int :=
  ((accounts.filter (fun a => a.service_type = t)).map (fun a => billAmount bd a.id)).sum

def fallbackComparison (accounts : List Account) (bd : BillData) : List ComparisonEntry :=
  (jsSetDedup (accounts.map (fun a => a.service_type))).map (fun t =>
    { service := chartMetaName t, amount := typeTotal accounts bd t, fill := chartMetaFill t })

/- The guard of the chart effect: the keys of billData whose loading flag
   is not truthy. -/
def chartLoadedBills (bd : BillData) (la : LoadingMap) : List AccountId :=
  (jsKeys bd).filter (fun id => !(loadingTruthy la id))

/- Whether the chart effect body reaches a backend call (and hence,
   possibly, the local fallback): it returns early when the account list
   is empty or when no loaded bill key exists. -/
def chartEffectRuns (accounts : List Account) (bd : BillData) (la : LoadingMap) : Bool :=
  if accounts.length = 0 then false
  else if (chartLoadedBills bd la).length = 0 then false
  else true

/- The full chart effect body: empty accounts reset the chart state, an
   all-in-flight billData leaves the previous state, a successful call
   installs the backend series with empty defaults, and a failed call
   installs the local comparison fallback with empty trend series. -/
def fetchChartData (accounts : List Account) (bd : BillData) (la : LoadingMap)
    (outcome : Except Unit ChartResponse) (prev : ChartState) : ChartState :=
  if accounts.length = 0 then
    { comparisonData := [], trendData := [], trendLines := [] }
  else if (chartLoadedBills bd la).length = 0 then prev
  else
    match outcome with
    | .ok d =>
      { comparisonData := d.comparison_data.getD []
        trendData := d.trend_data.getD []
        trendLines := d.trend_lines.getD [] }
    | .error _ =>
      { comparisonData := fallbackComparison accounts bd
        trendData := [], trendLines := [] }

/- Account removal, from handleRemoveAccount of the Dashboard page.  The
   remote delete outcome is only logged; the local updates run after it
   unconditionally.  The loadingAccounts map is not touched, and the cache
   is written with the filtered accounts but the pre-deletion billData. -/

structure RemoveResult where
  accounts : List Account
  billData : BillData
  loadingAccounts : LoadingMap
  cache : Option CacheData
deriving DecidableEq, Repr

def handleRemoveAccount (storageOk : Bool) (now : Int) (remoteOk : Bool)
    (a : Account) (accounts : List Account) (bd : BillData) (la : LoadingMap)
    (cache : Option CacheData) : RemoveResult :=
  { accounts := accounts.filter (fun x => x.id ≠ a.id)
    billData := jsDelete bd a.id
    loadingAccounts := la
    cache := saveCachedLayout storageOk now
      (accounts.filter (fun x => x.id ≠ a.id)) bd cache }

/- The auto-fetch effect on account-list changes: fetches start exactly
   for the accounts whose id has no snapshot in billData. -/
def accountsNeedingFetch (accounts : List Account) (bd : BillData) : List Account :=
  if accounts.length = 0 then []
  else accounts.filter (fun a => (jsLookup bd a.id).isNone)

/- The explicit user refresh runs the single-account fetch flow
   unconditionally. -/
def handleRefresh (a : Account) (outcome : Except Unit BillSnapshot)
    (bd : BillData) (la : LoadingMap) : BillData × LoadingMap :=
  fetchBillForAccount a outcome bd la

/- Payment initiation, from handlePayNow of the Dashboard page.  The
   selected account is set before the guard; the guard returns before the
   modal is opened and before the initiate call when the snapshot is
   missing, already paid, or has a falsy amount due. -/

structure PayNowResult where
  selectedAccount : Option Account
  qrCode : String
  isQRModalOpen : Bool
  initiateCalled : Bool
deriving DecidableEq, Repr

def amountTruthy (o : Option Int) : Bool :=
  match o with
  | none => false
  | some n => n != 0

def handlePayNow (a : Account) (bd : BillData) (modal₀ : Bool) (qr₀ : String) :
    PayNowResult :=
  match jsLookup bd a.id with
  | none =>
    { selectedAccount := some a, qrCode := qr₀, isQRModalOpen := modal₀
      initiateCalled := false }
  | some bill =>
    if bill.status == "paid" || !(amountTruthy bill.amount_due) then
      { selectedAccount := some a, qrCode := qr₀, isQRModalOpen := modal₀
        initiateCalled := false }
    else
      { selectedAccount := some a, qrCode := "", isQRModalOpen := true
        initiateCalled := true }

/- Incident-report analysis, from handleAnalyze of the two Sentinel pages.
   The request coordinates read the optional device location with a falsy
   fallback to null.  The await of the analyze call sits inside the async
   reader onload callback, outside the try block, so a rejected call skips
   the trailing setIsAnalyzing(false) and the outer catch never fires for
   it; the catch covers only a synchronous throw during reader setup. -/

structure GeoLocation where
  latitude : Int
  longitude : Int
  accuracy : Int
deriving DecidableEq, Repr

structure AnalyzePayload where
  image_base64 : String
  device_latitude : Option Int
  device_longitude : Option Int
deriving DecidableEq, Repr

structure AnalysisResult where
  success : Bool
  error_message : Option String
deriving DecidableEq, Repr

inductive AnalyzeOutcome where
  | ok (res : AnalysisResult)
  | rejected
deriving DecidableEq, Repr

structure AnalyzeState where
  isAnalyzing : Bool
  analysisResult : Option AnalysisResult
  sent : Option AnalyzePayload
deriving DecidableEq, Repr

def initialAnalyzeState : AnalyzeState :=
  { isAnalyzing := false, analysisResult := none, sent := none }

def jsCoordOrNull (v : Int) : Option Int :=
  if v = 0 then none else some v

def handleAnalyze (selectedImage : Option String) (loc : Option GeoLocation)
    (readerOk : Bool) (outcome : AnalyzeOutcome) (s : AnalyzeState) : AnalyzeState :=
  match selectedImage with
  | none => s
  | some img =>
    let s₁ := { s with isAnalyzing := true }
    if readerOk then
      let payload : AnalyzePayload :=
        { image_base64 := img
          device_latitude :=
            match loc with
            | none => none
            | some l => jsCoordOrNull l.latitude
          device_longitude :=
            match loc with
            | none => none
            | some l => jsCoordOrNull l.longitude }
      match outcome with
      | .ok res =>
        { s₁ with sent := some payload, analysisResult := some res, isAnalyzing := false }
      | .rejected => { s₁ with sent := some payload }
    else
      { s₁ with
        analysisResult :=
          some { success := false, error_message := some "Analysis failed. Please try again." }
        isAnalyzing := false }

/- Concrete accounts and snapshots used to evaluate the theorems. -/

def accA : Account :=
  { id := "a", service_type := "kseb", consumer_id := "KSEB123",
    label := "Home Power", profile_id := "p1", number_plate := none }

def accB : Account :=
  { id := "b", service_type := "kwa", consumer_id := "KWA456",
    label := "Home Water", profile_id := "p1", number_plate := none }

def paidSnap : BillSnapshot :=
  { amount_due := some 0, status := "paid", error := false, units_consumed := some 12 }

def unpaidSnap : BillSnapshot :=
  { amount_due := some 500, status := "unpaid", error := false, units_consumed := some 120 }

def staleCache : CacheData :=
  { accounts := [], billData := [], timestamp := some 1 }

end OneWay

namespace OneWay

/- Map lemmas. -/

theorem jsLookup_jsInsert_self {α : Type} (m : List (AccountId × α))
    (k : AccountId) (v : α) : jsLookup (jsInsert m k v) k = some v := by
  induction m with
  | nil => simp [jsInsert, jsLookup]
  | cons p rest ih =>
    obtain ⟨k₁, v₁⟩ := p
    by_cases h₁ : k₁ = k
    · simp [jsInsert, jsLookup, h₁]
    · simp [jsInsert, jsLookup, h₁, ih]

theorem jsLookup_jsInsert_ne {α : Type} (m : List (AccountId × α))
    (k k' : AccountId) (v : α) (h : k' ≠ k) :
    jsLookup (jsInsert m k v) k' = jsLookup m k' := by
  induction m with
  | nil => simp [jsInsert, jsLookup, Ne.symm h]
  | cons p rest ih =>
    obtain ⟨k₁, v₁⟩ := p
    by_cases h₁ : k₁ = k
    · subst h₁
      simp [jsInsert, jsLookup, Ne.symm h]
    · by_cases h₂ : k₁ = k'
      · simp [jsInsert, jsLookup, h₁, h₂, h]
      · simp [jsInsert, jsLookup, h₁, h₂, ih]

theorem jsLookup_jsDelete_self {α : Type} (m : List (AccountId × α))
    (k : AccountId) : jsLookup (jsDelete m k) k = none := by
  induction m with
  | nil => rfl
  | cons p rest ih =>
    obtain ⟨k₁, v⟩ := p
    by_cases h : k₁ = k
    · simpa [jsDelete, h] using ih
    · simpa [jsDelete, jsLookup, h] using ih

/-- C1: if the per-account bill fetch for account a fails, billData at a.id
becomes the snapshot with amount_due 0, status unknown and error true, and
the snapshot at every other key b is unchanged by that failure. -/
theorem fetchBillFailure_isolated (bd : BillData) (la : LoadingMap)
    (a : Account) (b : AccountId) (h : b ≠ a.id) :
    jsLookup (fetchBillForAccount a (.error ()) bd la).1 a.id = some errorSnapshot ∧
    jsLookup (fetchBillForAccount a (.error ()) bd la).1 b = jsLookup bd b := by
  constructor
  · exact jsLookup_jsInsert_self bd a.id errorSnapshot
  · exact jsLookup_jsInsert_ne bd a.id b errorSnapshot h

/-- C1 witness: evaluated at a concrete store holding account b's snapshot. -/
theorem fetchBillFailure_isolated_witness :
    jsLookup (fetchBillForAccount accA (.error ()) [("b", paidSnap)] []).1 "a" =
      some errorSnapshot ∧
    jsLookup (fetchBillForAccount accA (.error ()) [("b", paidSnap)] []).1 "b" =
      jsLookup [("b", paidSnap)] "b" :=
  fetchBillFailure_isolated [("b", paidSnap)] [] accA "b" (by decide)

/-- C2: confirming payment for a selected account sets its snapshot's
amount_due to 0 and status to paid — the transition takes no network
outcome at all — and, when storage works, the same update persists the
current accounts together with the new billData into the layout cache. -/
theorem paymentComplete_optimistic (storageOk : Bool) (now : Int)
    (sel : Option Account) (a : Account) (accounts : List Account)
    (bd : BillData) (cache : Option CacheData)
    (hsel : sel = some a) (hok : storageOk = true) :
    (∃ s, jsLookup (handlePaymentComplete storageOk now sel accounts bd cache).billData
            a.id = some s ∧
          s.amount_due = some 0 ∧ s.status = "paid") ∧
    (handlePaymentComplete storageOk now sel accounts bd cache).cache =
      some { accounts := accounts
             billData := (handlePaymentComplete storageOk now sel accounts bd cache).billData
             timestamp := some now } := by
  subst hsel hok
  constructor
  · refine ⟨paymentCompleteSnapshot (jsLookup bd a.id), ?_, ?_, ?_⟩
    · exact jsLookup_jsInsert_self bd a.id _
    · cases jsLookup bd a.id <;> rfl
    · cases jsLookup bd a.id <;> rfl
  · rfl

/-- C2 witness: paying the single unpaid account updates the snapshot and
the persisted cache record in one step. -/
theorem paymentComplete_optimistic_witness :
    (∃ s, jsLookup (handlePaymentComplete true 5 (some accA) [accA]
            [("a", unpaidSnap)] none).billData "a" = some s ∧
          s.amount_due = some 0 ∧ s.status = "paid") ∧
    (handlePaymentComplete true 5 (some accA) [accA] [("a", unpaidSnap)] none).cache =
      some { accounts := [accA]
             billData := (handlePaymentComplete true 5 (some accA) [accA]
               [("a", unpaidSnap)] none).billData
             timestamp := some 5 } :=
  paymentComplete_optimistic true 5 (some accA) accA [accA] [("a", unpaidSnap)] none rfl rfl

/-- C3: whenever the chart backend call fails (which presupposes the effect
body reached the call), the resulting trend series and trend lines are
empty and the comparison series has exactly one entry per distinct service
type of the current accounts, carrying the sum of the loaded amounts due of
that type, with missing amounts counted as zero. -/
theorem chartFailure_fallback (accounts : List Account) (bd : BillData)
    (la : LoadingMap) (prev : ChartState)
    (hrun : chartEffectRuns accounts bd la = true) :
    (fetchChartData accounts bd la (.error ()) prev).trendData = [] ∧
    (fetchChartData accounts bd la (.error ()) prev).trendLines = [] ∧
    (fetchChartData accounts bd la (.error ()) prev).comparisonData.length =
      (jsSetDedup (accounts.map (fun a => a.service_type))).length ∧
    ∀ t ∈ jsSetDedup (accounts.map (fun a => a.service_type)),
      ({ service := chartMetaName t, amount := typeTotal accounts bd t,
         fill := chartMetaFill t } : ComparisonEntry) ∈
        (fetchChartData accounts bd la (.error ()) prev).comparisonData := by
  unfold chartEffectRuns at hrun
  unfold fetchChartData
  by_cases h₁ : accounts.length = 0
  · simp [h₁] at hrun
  · by_cases h₂ : (chartLoadedBills bd la).length = 0
    · simp [h₁, h₂] at hrun
    · rw [if_neg h₁, if_neg h₂]
      refine ⟨rfl, rfl, ?_, ?_⟩
      · simp [fallbackComparison]
      · intro t ht
        simp only [fallbackComparison, List.mem_map]
        exact ⟨t, ht, rfl⟩

/-- C3 witness: one loaded kseb account and one failed kwa account give a
fallback with two buckets and no trend data. -/
theorem chartFailure_fallback_witness :
    (fetchChartData [accA, accB] [("a", unpaidSnap)] [] (.error ())
      { comparisonData := [], trendData := ["x"], trendLines := ["y"] }).trendData = [] ∧
    (fetchChartData [accA, accB] [("a", unpaidSnap)] [] (.error ())
      { comparisonData := [], trendData := ["x"], trendLines := ["y"] }).trendLines = [] ∧
    (fetchChartData [accA, accB] [("a", unpaidSnap)] [] (.error ())
      { comparisonData := [], trendData := ["x"], trendLines := ["y"] }).comparisonData.length =
      (jsSetDedup ([accA, accB].map (fun a => a.service_type))).length ∧
    ∀ t ∈ jsSetDedup ([accA, accB].map (fun a => a.service_type)),
      ({ service := chartMetaName t, amount := typeTotal [accA, accB] [("a", unpaidSnap)] t,
         fill := chartMetaFill t } : ComparisonEntry) ∈
        (fetchChartData [accA, accB] [("a", unpaidSnap)] [] (.error ())
          { comparisonData := [], trendData := ["x"], trendLines := ["y"] }).comparisonData :=
  chartFailure_fallback [accA, accB] [("a", unpaidSnap)] []
    { comparisonData := [], trendData := ["x"], trendLines := ["y"] } (by decide)

/-- C4 counterexample: with account a loaded and account b's first fetch
still in flight, the chart effect body executes anyway, so the adapter is
not skipped while an account's fetch is in flight. -/
theorem chartRuns_midFetch_cex :
    chartEffectRuns [accA, accB] [("a", unpaidSnap)] [("b", true)] = true ∧
    loadingTruthy [("b", true)] accB.id = true ∧
    accB ∈ [accA, accB] := by decide

/-- C4 amended: the chart effect body reaches its call exactly when the
account list is nonempty and at least one billData key is not in flight;
in particular it still skips while every stored snapshot's account is
mid-fetch, but it can run while some other account's fetch is in flight. -/
theorem chartEffectRuns_iff (accounts : List Account) (bd : BillData)
    (la : LoadingMap) :
    chartEffectRuns accounts bd la = true ↔
      accounts ≠ [] ∧ ∃ id ∈ jsKeys bd, loadingTruthy la id = false := by
  unfold chartEffectRuns
  by_cases h₁ : accounts.length = 0
  · simp [h₁, List.length_eq_zero.mp h₁]
  · by_cases h₂ : (chartLoadedBills bd la).length = 0
    · simp only [h₁, if_false, h₂, if_true]
      constructor
      · intro hf
        cases hf
      · rintro ⟨hne, id, hid, hload⟩
        exfalso
        have hmem : id ∈ chartLoadedBills bd la := by
          unfold chartLoadedBills
          rw [List.mem_filter]
          exact ⟨hid, by simp [hload]⟩
        rw [List.length_eq_zero.mp h₂] at hmem
        cases hmem
    · simp only [h₁, if_false, h₂, if_true]
      constructor
      · intro _
        refine ⟨fun hacc => h₁ (by simp [hacc]), ?_⟩
        have hne : chartLoadedBills bd la ≠ [] := fun hnil => h₂ (by simp [hnil])
        obtain ⟨id, hid⟩ := List.exists_mem_of_ne_nil _ hne
        unfold chartLoadedBills at hid
        rw [List.mem_filter] at hid
        exact ⟨id, hid.1, by simpa using hid.2⟩
      · intro _
        trivial

/-- C5 counterexample: a parsed cache record whose age is exactly 24 hours
is rejected by the load path even though its age does not exceed 24 hours,
so the load does not return every well-formed record at most 24 hours old. -/
theorem loadCachedLayout_boundary_cex :
    staleCache.timestamp = some 1 ∧
    loadCachedLayout 86400001 (.parsed staleCache) = none ∧
    ¬((86400001 : Int) - 1 > msPerDay) := by decide

/-- C5 amended: the load returns a stored record exactly when it parsed,
its timestamp is present and nonzero, and its age is strictly below the
24-hour window; absent, malformed, timestamp-less and too-old records all
give null. -/
theorem loadCachedLayout_some_iff (now : Int) (s : StoredCache) (d : CacheData) :
    loadCachedLayout now s = some d ↔
      s = .parsed d ∧ ∃ t, d.timestamp = some t ∧ t ≠ 0 ∧ now - t < msPerDay := by
  cases s with
  | absent => simp [loadCachedLayout]
  | malformed => simp [loadCachedLayout]
  | parsed e =>
    constructor
    · intro h
      cases he : e.timestamp with
      | none => simp [loadCachedLayout, he] at h
      | some t =>
        simp only [loadCachedLayout, he] at h
        by_cases hc : t ≠ 0 ∧ now - t < msPerDay
        · rw [if_pos hc] at h
          have hed : e = d := by injection h
          subst hed
          exact ⟨rfl, t, he, hc.1, hc.2⟩
        · rw [if_neg hc] at h
          cases h
    · rintro ⟨hs, t, ht, ht0, hlt⟩
      have hed : e = d := by injection hs
      subst hed
      simp only [loadCachedLayout, ht]
      rw [if_pos ⟨ht0, hlt⟩]

/-- C6 counterexample: removing account a leaves its in-flight loading flag
set, so the per-account loading state is not evicted by removal. -/
theorem removeAccount_loadingFlag_cex :
    loadingTruthy (handleRemoveAccount true 0 true accA [accA]
      [("a", errorSnapshot)] [("a", true)] none).loadingAccounts "a" = true := by
  decide

/-- C6 amended: regardless of the remote delete outcome, removal filters
the account out of the account list and deletes its billData entry, but
the loadingAccounts map is left entirely unchanged. -/
theorem removeAccount_purges (storageOk : Bool) (now : Int) (remoteOk : Bool)
    (a : Account) (accounts : List Account) (bd : BillData) (la : LoadingMap)
    (cache : Option CacheData) :
    ((handleRemoveAccount storageOk now remoteOk a accounts bd la cache).accounts.all
        (fun x => x.id ≠ a.id)) = true ∧
    jsLookup (handleRemoveAccount storageOk now remoteOk a accounts bd la cache).billData
      a.id = none ∧
    (handleRemoveAccount storageOk now remoteOk a accounts bd la cache).loadingAccounts =
      la := by
  refine ⟨?_, jsLookup_jsDelete_self bd a.id, rfl⟩
  simp only [handleRemoveAccount, List.all_eq_true, List.mem_filter]
  intro x hx
  exact hx.2

/-- C7: an account whose id already has a snapshot in billData, including
an error snapshot, is never in the automatically fetched set; the explicit
refresh runs the single-account fetch for it unconditionally and its
outcome supersedes the stored snapshot, success or failure. -/
theorem autoFetch_skips_existing (accounts : List Account) (bd : BillData)
    (la : LoadingMap) (a : Account) (outcome : Except Unit BillSnapshot)
    (hsnap : (jsLookup bd a.id).isSome = true) :
    a ∉ accountsNeedingFetch accounts bd ∧
    jsLookup (handleRefresh a outcome bd la).1 a.id =
      some (match outcome with | .ok d => d | .error _ => errorSnapshot) := by
  constructor
  · intro hmem
    unfold accountsNeedingFetch at hmem
    by_cases h : accounts.length = 0
    · simp [h] at hmem
    · simp only [h, if_false] at hmem
      rw [List.mem_filter] at hmem
      have hnone := hmem.2
      simp only [Option.isNone_iff_eq_none, decide_eq_true_eq] at hnone
      rw [hnone] at hsnap
      cases hsnap
  · cases outcome with
    | ok d => exact jsLookup_jsInsert_self bd a.id d
    | error e => exact jsLookup_jsInsert_self bd a.id errorSnapshot

/-- C7 witness: an account with an error snapshot is skipped by the
auto-fetch set and superseded by an explicit refresh whose retry fails. -/
theorem autoFetch_skips_existing_witness :
    accA ∉ accountsNeedingFetch [accA] [("a", errorSnapshot)] ∧
    jsLookup (handleRefresh accA (.error ()) [("a", errorSnapshot)] []).1 "a" =
      some errorSnapshot :=
  autoFetch_skips_existing [accA] [("a", errorSnapshot)] [] accA (.error ()) (by decide)

/-- C8: the optimistic payment transition spreads the previous snapshot, so
applied to the error snapshot (which has error true and status unknown) it
produces a stored snapshot with error still true and status paid — the
reachable store violates the error-implies-unknown invariant. -/
theorem paymentComplete_error_snapshot :
    errorSnapshot.error = true ∧ errorSnapshot.status = "unknown" ∧
    jsLookup (handlePaymentComplete true 7 (some accA) [accA]
        [("a", errorSnapshot)] none).billData "a" =
      some { amount_due := some 0, status := "paid", error := true,
             units_consumed := none } := by
  decide

/-- C9: with an image selected and geolocation denied, the analysis request
is sent with null device coordinates, but a rejected analyze call leaves
the flow with isAnalyzing still true and no result — the rejection happens
inside the async reader callback, outside the try block, so the failure
handler never runs and the flow is stuck in Analyzing. -/
theorem analyze_rejected_stuck :
    (handleAnalyze (some "img") none true .rejected initialAnalyzeState).sent =
      some { image_base64 := "img", device_latitude := none, device_longitude := none } ∧
    (handleAnalyze (some "img") none true .rejected initialAnalyzeState).isAnalyzing =
      true ∧
    (handleAnalyze (some "img") none true .rejected initialAnalyzeState).analysisResult =
      none := by
  decide

/-- C10: initiating payment for an account whose snapshot is missing,
already paid, or whose amount due is zero or absent opens no payment modal,
issues no initiate call, and leaves the QR code untouched. -/
theorem payNow_guard_noop (a : Account) (bd : BillData) (modal₀ : Bool)
    (qr₀ : String)
    (h : jsLookup bd a.id = none ∨
         ∃ bill, jsLookup bd a.id = some bill ∧
           (bill.status = "paid" ∨ bill.amount_due = none ∨ bill.amount_due = some 0)) :
    (handlePayNow a bd modal₀ qr₀).isQRModalOpen = modal₀ ∧
    (handlePayNow a bd modal₀ qr₀).initiateCalled = false ∧
    (handlePayNow a bd modal₀ qr₀).qrCode = qr₀ := by
  unfold handlePayNow
  rcases h with h | ⟨bill, hb, hcase⟩
  · rw [h]
    exact ⟨rfl, rfl, rfl⟩
  · rw [hb]
    have hguard : (bill.status == "paid" || !(amountTruthy bill.amount_due)) = true := by
      rcases hcase with h₁ | h₂ | h₃
      · simp [h₁]
      · simp [amountTruthy, h₂]
      · simp [amountTruthy, h₃]
    simp [hguard]

/-- C10 witness: an error snapshot (amount due zero) leaves the modal
closed and makes no initiate call. -/
theorem payNow_guard_noop_witness :
    (handlePayNow accA [("a", errorSnapshot)] false "").isQRModalOpen = false ∧
    (handlePayNow accA [("a", errorSnapshot)] false "").initiateCalled = false ∧
    (handlePayNow accA [("a", errorSnapshot)] false "").qrCode = "" :=
  payNow_guard_noop accA [("a", errorSnapshot)] false ""
    (Or.inr ⟨errorSnapshot, by decide, Or.inr (Or.inr (by decide))⟩)

end OneWay
